import Mathlib

/-!
Shallow embedding of the outpost job pipeline (src/outpost): job records,
the worker's status updates and executor, the job submission gateway and
cancellation, the audit service, and the authorizer. Storage effects are
modelled by explicit state passing over a `World`; external faults
(queue publish failure, workspace creation failure, child process
outcome) are oracle parameters. Timestamps are abstract naturals.
-/

namespace Outpost

/-- JobStatus enum from models/job.py. -/
inductive JobStatus
  | pending
  | running
  | success
  | failed
  | cancelled
  deriving DecidableEq

/-- String value of a status, as stored ("pending", "running", ...). -/
def JobStatus.value : JobStatus → String
  | .pending => "pending"
  | .running => "running"
  | .success => "success"
  | .failed => "failed"
  | .cancelled => "cancelled"

/-- Terminal states per the spec glossary: SUCCESS, FAILED, CANCELLED. -/
def JobStatus.isTerminal : JobStatus → Bool
  | .success => true
  | .failed => true
  | .cancelled => true
  | _ => false

/-- A stored job item. Attributes other than `status` are optional because
DynamoDB items are schemaless and `update_item` upserts partial items;
`none` stands for an absent or NULL attribute. -/
structure JobRec where
  agent : Option String := none
  command : Option String := none
  created_at : Option Nat := none
  output_location : Option String := none
  status : JobStatus
  completed_at : Option Nat := none
  error_message : Option String := none
  deriving DecidableEq

/-- An audit entry as written by AuditService.log_action (fields the
claims depend on). -/
structure AuditEntry where
  tenant_id : String
  action : String
  resource : String
  deriving DecidableEq

/-- A message published to the dispatch queue by submit_job. -/
structure QueueMsg where
  tenant_id : String
  job_id : String
  body : JobRec
  priority : String
  deriving DecidableEq

/-- Chronological trace of external writes, used to state ordering
(persist-before-publish) and single-write atomicity. -/
inductive Event
  | jobWrite (rec : JobRec)
  | publish (m : QueueMsg)
  | auditPut (e : AuditEntry)
  deriving DecidableEq

/-- The world state threaded through every operation: the job record at
the key under consideration, the dispatch queue, the audit table (in
write order), and the chronological event trace. -/
structure World where
  job : Option JobRec
  queue : List QueueMsg
  log : List AuditEntry
  events : List Event
  deriving DecidableEq

/-- AuditService.log_action: builds the entry and writes it inside a
try/except that swallows any storage failure, so the function always
returns normally. `auditOk` is the oracle for whether the audit
put_item succeeds. -/
def AuditService.log_action (auditOk : Bool) (w : World) (e : AuditEntry) : World :=
  if auditOk then
    { w with log := w.log ++ [e], events := w.events ++ [Event.auditPut e] }
  else
    w

/-- Python truthiness of the optional `error` string: `if error:` is
taken exactly when the value is present and non-empty. -/
def pyTruthy : Option String → Bool
  | none => false
  | some s => s ≠ ""

/-- Worker.update_job_status: one unconditional update_item with
UpdateExpression "SET #s = :s, completed_at = :c" (plus
", error_message = :e" only when `error` is truthy). `:c` is the
current time when the new status is SUCCESS or FAILED, NULL otherwise.
There is no ConditionExpression; on a missing item DynamoDB upserts a
partial item carrying only the SET attributes. -/
def Worker.update_job_status (w : World) (status : JobStatus) (error : Option String)
    (now : Nat) : World :=
  let completed : Option Nat :=
    if status = JobStatus.success ∨ status = JobStatus.failed then some now else none
  let newRec : JobRec :=
    match w.job with
    | some j =>
        { j with
          status := status
          completed_at := completed
          error_message := if pyTruthy error then error else j.error_message }
    | none =>
        { status := status
          completed_at := completed
          error_message := if pyTruthy error then error else none }
  { w with job := some newRec, events := w.events ++ [Event.jobWrite newRec] }

/-- Outcome of the child process started by subprocess.Popen /
communicate in Worker.execute. -/
inductive RunOutcome
  | exited (returncode : Int) (stdout : String) (stderr : String)
  | timeoutExpired
  | raised (msg : String)
  deriving DecidableEq

/-- Oracle inputs for one Worker.execute invocation: whether
os.makedirs succeeds (it runs OUTSIDE the try block in the source),
the child process outcome, whether audit writes succeed, and the two
clock readings. -/
structure ExecEnv where
  mkdirs : Except String Unit
  run : RunOutcome
  auditOk : Bool
  nowRunning : Nat
  nowTerminal : Nat

/-- Worker.execute: unconditionally writes RUNNING and audits START_JOB,
creates the workspace directory, then runs the command under the
try/except. A makedirs failure happens before the try block and
propagates (Except.error); TimeoutExpired maps to FAILED with
"Timeout expired" and JOB_TIMEOUT; any other exception maps to FAILED
with the exception text and JOB_ERROR. -/
def Worker.execute (env : ExecEnv) (tenant_id job_id : String) (w : World) :
    World × Except String Unit :=
  let w1 := Worker.update_job_status w JobStatus.running none env.nowRunning
  let w2 := AuditService.log_action env.auditOk w1 ⟨tenant_id, "START_JOB", job_id⟩
  match env.mkdirs with
  | Except.error msg => (w2, Except.error msg)
  | Except.ok () =>
    match env.run with
    | RunOutcome.exited c _ stderr =>
        if c = 0 then
          let w3 := Worker.update_job_status w2 JobStatus.success none env.nowTerminal
          (AuditService.log_action env.auditOk w3 ⟨tenant_id, "JOB_SUCCESS", job_id⟩,
           Except.ok ())
        else
          let w3 := Worker.update_job_status w2 JobStatus.failed (some stderr) env.nowTerminal
          (AuditService.log_action env.auditOk w3 ⟨tenant_id, "JOB_FAILED", job_id⟩,
           Except.ok ())
    | RunOutcome.timeoutExpired =>
        let w3 := Worker.update_job_status w2 JobStatus.failed (some "Timeout expired")
          env.nowTerminal
        (AuditService.log_action env.auditOk w3 ⟨tenant_id, "JOB_TIMEOUT", job_id⟩,
         Except.ok ())
    | RunOutcome.raised msg =>
        let w3 := Worker.update_job_status w2 JobStatus.failed (some msg) env.nowTerminal
        (AuditService.log_action env.auditOk w3 ⟨tenant_id, "JOB_ERROR", job_id⟩,
         Except.ok ())

/-- AgentType enum membership from models/job.py. -/
def agentRecognized (a : String) : Bool :=
  a = "claude" ∨ a = "codex" ∨ a = "gemini" ∨ a = "grok" ∨ a = "aider"

/-- Oracle inputs for one submit_job invocation. -/
structure SubmitEnv where
  queueConfigured : Bool
  putOk : Bool
  publishOk : Bool
  auditOk : Bool
  now : Nat
  priority : String
  deriving DecidableEq

/-- JobAPI.submit_job: validate (agent enum, non-empty command), build
the Job in PENDING, put_item to the store, then (if a queue is
configured) send_message, then audit SUBMIT_JOB. A put or publish
failure raises and propagates after the effects already committed. -/
def JobAPI.submit_job (env : SubmitEnv) (tenant_id job_id : String)
    (agent command : String) (w : World) : World × Except String JobRec :=
  if ¬ agentRecognized agent then
    (w, Except.error "ValueError: invalid agent")
  else if command = "" then
    (w, Except.error "ValidationError: command too short")
  else
    let item : JobRec :=
      { agent := some agent
        command := some command
        created_at := some env.now
        status := JobStatus.pending }
    if ¬ env.putOk then
      (w, Except.error "put_item failed")
    else
      let w1 : World := { w with job := some item, events := w.events ++ [Event.jobWrite item] }
      if env.queueConfigured then
        if env.publishOk then
          let m : QueueMsg := ⟨tenant_id, job_id, item, env.priority⟩
          let w2 : World := { w1 with queue := w1.queue ++ [m],
                                      events := w1.events ++ [Event.publish m] }
          let w3 := AuditService.log_action env.auditOk w2 ⟨tenant_id, "SUBMIT_JOB", job_id⟩
          (w3, Except.ok item)
        else
          (w1, Except.error "send_message failed")
      else
        let w3 := AuditService.log_action env.auditOk w1 ⟨tenant_id, "SUBMIT_JOB", job_id⟩
        (w3, Except.ok item)

/-- JobAPI.cancel_job: a single conditional update_item with
UpdateExpression "SET #s = :s" (status only) guarded by
ConditionExpression "#s = :pending". A failed condition (or a missing
item) raises ConditionalCheckFailedException before the audit call, so
nothing is written and no CANCEL_JOB entry is logged. -/
def JobAPI.cancel_job (auditOk : Bool) (tenant_id job_id : String) (w : World) :
    World × Except String String :=
  match w.job with
  | some j =>
    if j.status = JobStatus.pending then
      let j1 : JobRec := { j with status := JobStatus.cancelled }
      let w1 : World := { w with job := some j1, events := w.events ++ [Event.jobWrite j1] }
      let w2 := AuditService.log_action auditOk w1 ⟨tenant_id, "CANCEL_JOB", job_id⟩
      (w2, Except.ok "cancelled")
    else
      (w, Except.error "ConditionalCheckFailedException")
  | none => (w, Except.error "ConditionalCheckFailedException")

/-- A key item as returned by the api_key-index GSI query. All fields
optional: the handler reads them with dict.get defaults, and a missing
tenant_id raises a KeyError that the surrounding try/except turns into
a denial. -/
structure KeyItem where
  tenant_id : Option String := none
  api_key_hash : Option String := none
  revoked : Option Bool := none
  scopes : Option (List String) := none
  name : Option String := none
  deriving DecidableEq

/-- The tenant context validate_key returns on success. -/
structure TenantCtx where
  tenant_id : String
  scopes : List String
  key_name : String
  deriving DecidableEq

/-- The storage world the authorizer runs against: the GSI lookup by
key hash (Except models a storage error), and the tenants' lifecycle
status ("active" / "suspended" / "deleted"). The source never consults
`tenantStatus`; it is carried so claims about it can be stated. -/
structure AuthWorld where
  lookup : String → Except String (List KeyItem)
  tenantStatus : String → Option String

/-- Model of Python str.startswith. -/
def pyStartswith (s p : String) : Bool :=
  List.isPrefixOf p.data s.data

/-- Authorizer.validate_key: immediate rejection unless the credential
starts with "op_live_" or "op_test_"; then hash, query the GSI inside a
try/except (any exception, storage error or KeyError alike, yields
None), deny on no item or a revoked first item, else return the tenant
context taken from the first item. -/
def Authorizer.validate_key (aw : AuthWorld) (hashFn : String → String)
    (api_key : String) : Option TenantCtx :=
  if ¬ (pyStartswith api_key "op_live_" || pyStartswith api_key "op_test_") then
    none
  else
    match aw.lookup (hashFn api_key) with
    | Except.error _ => none
    | Except.ok items =>
      match items.head? with
      | none => none
      | some key_data =>
        if key_data.revoked.getD false then
          none
        else
          match key_data.tenant_id with
          | none => none
          | some tid => some ⟨tid, key_data.scopes.getD ["job:run"], key_data.name.getD "default"⟩

/-- Python str.lower restricted to ASCII, as the model of .lower(). -/
def pyLowerChar (c : Char) : Char :=
  if 'A' ≤ c ∧ c ≤ 'Z' then Char.ofNat (c.toNat + 32) else c

/-- Model of Python str.lower(). -/
def pyLower (s : String) : String :=
  String.mk (s.data.map pyLowerChar)

/-- Worker for pySplit: split on whitespace runs, accumulator holds the
current word reversed. -/
def splitWsAux : List Char → List Char → List String
  | [], [] => []
  | [], acc => [String.mk acc.reverse]
  | c :: cs, acc =>
    if c.isWhitespace then
      match acc with
      | [] => splitWsAux cs []
      | _ => String.mk acc.reverse :: splitWsAux cs []
    else
      splitWsAux cs (c :: acc)

/-- Model of Python str.split() with no argument: split on runs of
whitespace, discarding empty words. -/
def pySplit (s : String) : List String :=
  splitWsAux s.data []

/-- Token extraction in the authorizer lambda handler: if the token is
not exactly two whitespace-separated parts whose first part lowercases
to "bearer", the whole raw token is used as the API key; otherwise the
second part is. -/
def extractApiKey (auth_token : String) : String :=
  let parts := pySplit auth_token
  if parts.length ≠ 2 ∨ pyLower (parts.headD "") ≠ "bearer" then
    auth_token
  else
    parts.getD 1 ""

/-- The IAM policy the authorizer handler returns (the fields the
claims depend on). -/
structure Policy where
  principalId : String
  effect : String
  context : Option TenantCtx
  deriving DecidableEq

/-- The authorizer lambda handler: raise Unauthorized on a missing or
falsy token, extract the API key, validate it, and answer Allow with
the tenant context or Deny with principal "anonymous" and empty
context. -/
def authorizerHandler (aw : AuthWorld) (hashFn : String → String)
    (auth_token : Option String) : Except String Policy :=
  match auth_token with
  | none => Except.error "Unauthorized"
  | some t =>
    if t = "" then
      Except.error "Unauthorized"
    else
      match Authorizer.validate_key aw hashFn (extractApiKey t) with
      | some ctx => Except.ok ⟨ctx.tenant_id, "Allow", some ctx⟩
      | none => Except.ok ⟨"anonymous", "Deny", none⟩

/-- The key-store world for APIKeyAPI: items keyed by sort key, plus
the audit log. -/
structure KeyWorld where
  keys : List (String × KeyItem)
  log : List AuditEntry
  deriving DecidableEq

/-- Audit append with the same swallow-all-failures behaviour as
AuditService.log_action, for the key-store world. -/
def KeyWorld.log_action (auditOk : Bool) (kw : KeyWorld) (e : AuditEntry) : KeyWorld :=
  if auditOk then { kw with log := kw.log ++ [e] } else kw

/-- What APIKeyAPI.generate_key returns to the caller. -/
structure GenKeyResult where
  key_id : String
  name : String
  api_key : String
  created_at : Nat
  deriving DecidableEq

/-- APIKeyAPI.generate_key: build the APIKey record (hash of the raw
key, scopes job:run, not revoked), put_item it under sort key
"KEY#<key_id>", audit GENERATE_KEY, and return the raw key once. -/
def APIKeyAPI.generate_key (auditOk : Bool) (hashFn : String → String)
    (tenant_id name raw_key key_id : String) (now : Nat) (kw : KeyWorld) :
    KeyWorld × GenKeyResult :=
  let sk := "KEY#" ++ key_id
  let item : KeyItem :=
    { tenant_id := some tenant_id
      api_key_hash := some (hashFn raw_key)
      revoked := some false
      scopes := some ["job:run"]
      name := some name }
  let kw1 : KeyWorld := { kw with keys := kw.keys ++ [(sk, item)] }
  let kw2 := KeyWorld.log_action auditOk kw1 ⟨tenant_id, "GENERATE_KEY", key_id⟩
  (kw2, ⟨key_id, name, raw_key, now⟩)

/-- Upsert semantics of the unconditional update_item in revoke_key:
set revoked on the existing item under the sort key, or create a
partial item carrying only the revoked attribute. -/
def revokeUpsert : List (String × KeyItem) → String → List (String × KeyItem)
  | [], sk => [(sk, { revoked := some true })]
  | (k, it) :: rest, sk =>
    if k = sk then (k, { it with revoked := some true }) :: rest
    else (k, it) :: revokeUpsert rest sk

/-- APIKeyAPI.revoke_key: unconditional update_item setting
revoked = true under sort key "KEY#<key_id>", then audit REVOKE_KEY. -/
def APIKeyAPI.revoke_key (auditOk : Bool) (tenant_id key_id : String) (kw : KeyWorld) :
    KeyWorld × Except String String :=
  let sk := "KEY#" ++ key_id
  let kw1 : KeyWorld := { kw with keys := revokeUpsert kw.keys sk }
  let kw2 := KeyWorld.log_action auditOk kw1 ⟨tenant_id, "REVOKE_KEY", key_id⟩
  (kw2, Except.ok "revoked")

/-- The status-mutating operations on one job record: the gateway's
initial PENDING write, the tenant's cancel, and the worker's status
update. -/
inductive JobOp
  | submitPut (agent command : String) (now : Nat)
  | cancel
  | workerUpdate (status : JobStatus) (error : Option String) (now : Nat)

/-- Effect of one status-mutating operation on the stored record (the
record component only; queue/audit are irrelevant to the state machine
claims). -/
def applyJobOp (op : JobOp) (st : Option JobRec) : Option JobRec :=
  match op with
  | JobOp.submitPut agent command now =>
      some { agent := some agent
             command := some command
             created_at := some now
             status := JobStatus.pending }
  | JobOp.cancel =>
      (JobAPI.cancel_job true "" "" ⟨st, [], [], []⟩).1.job
  | JobOp.workerUpdate status error now =>
      (Worker.update_job_status ⟨st, [], [], []⟩ status error now).job

/-- Run a sequence of status-mutating operations. -/
def runJobOps : List JobOp → Option JobRec → Option JobRec
  | [], st => st
  | op :: ops, st => runJobOps ops (applyJobOp op st)

/-- Completion-timestamp discipline on a stored record: a PENDING or
RUNNING record carries no completion time, a SUCCESS or FAILED record
always carries one. -/
def statusCompletionOk (st : Option JobRec) : Prop :=
  ∀ j, st = some j →
    ((j.status = JobStatus.pending ∨ j.status = JobStatus.running) → j.completed_at = none)
    ∧ ((j.status = JobStatus.success ∨ j.status = JobStatus.failed) → j.completed_at.isSome = true)

/-- On a run of non-whitespace characters the splitter yields the single
word made of the accumulator and the rest. -/
theorem splitWsAux_noWs (l : List Char) :
    ∀ acc : List Char, (∀ c ∈ l, c.isWhitespace = false) → (acc ≠ [] ∨ l ≠ []) →
      splitWsAux l acc = [String.mk (acc.reverse ++ l)] := by
  induction l with
  | nil =>
    intro acc _ hne
    rcases hne with h | h
    · cases acc with
      | nil => exact absurd rfl h
      | cons c cs => simp [splitWsAux]
    · exact absurd rfl h
  | cons c cs ih =>
    intro acc hno _
    have hc : c.isWhitespace = false := hno c (by simp)
    have hcs : ∀ x ∈ cs, x.isWhitespace = false := fun x hx => hno x (by simp [hx])
    simp only [splitWsAux, hc, Bool.false_eq_true, if_false]
    rw [ih (c :: acc) hcs (Or.inl (by simp))]
    simp

/-- Splitting a non-empty whitespace-free string yields that string. -/
theorem pySplit_noWs (k : String) (hk : k ≠ "") (h : ∀ c ∈ k.data, c.isWhitespace = false) :
    pySplit k = [k] := by
  have hd : k.data ≠ [] := by
    intro hnil
    apply hk
    cases k with
    | mk l => cases hnil; rfl
  rw [pySplit, splitWsAux_noWs k.data [] h (Or.inr hd)]
  cases k with
  | mk l => simp

/-- Character data of an appended string. -/
theorem data_append (s t : String) : (s ++ t).data = s.data ++ t.data := by
  cases s; cases t; rfl

/-- Splitting "Bearer " followed by a whitespace-free credential. -/
theorem pySplit_bearer (k : String) (hk : k ≠ "") (h : ∀ c ∈ k.data, c.isWhitespace = false) :
    pySplit ("Bearer " ++ k) = ["Bearer", k] := by
  have hd : ("Bearer " ++ k).data = 'B' :: 'e' :: 'a' :: 'r' :: 'e' :: 'r' :: ' ' :: k.data := by
    rw [data_append]; rfl
  rw [pySplit, hd]
  show splitWsAux ('B' :: 'e' :: 'a' :: 'r' :: 'e' :: 'r' :: ' ' :: k.data) [] = _
  norm_num [splitWsAux]
  have hdne : k.data ≠ [] := by
    intro hnil
    apply hk
    cases k with
    | mk l => cases hnil; rfl
  rw [splitWsAux_noWs k.data [] h (Or.inr hdne)]
  cases k with
  | mk l => simp

/-- log_action never changes the job record. -/
theorem logAction_job (a : Bool) (w : World) (e : AuditEntry) :
    (AuditService.log_action a w e).job = w.job := by
  cases a <;> simp [AuditService.log_action]

/-- log_action never changes the queue. -/
theorem logAction_queue (a : Bool) (w : World) (e : AuditEntry) :
    (AuditService.log_action a w e).queue = w.queue := by
  cases a <;> simp [AuditService.log_action]

/-- C1: the claim as stated is false on the code. At the concrete input
of a CANCELLED record, the worker's status update (which carries no
ConditionExpression) overwrites the terminal status with RUNNING: the
transition leaves a terminal state and changes the record instead of
being rejected. -/
theorem claim1_counterexample :
    (applyJobOp (JobOp.workerUpdate JobStatus.running none 5)
      (some { status := JobStatus.cancelled })).map JobRec.status = some JobStatus.running
    ∧ JobStatus.isTerminal JobStatus.cancelled = true
    ∧ applyJobOp (JobOp.workerUpdate JobStatus.running none 5)
        (some { status := JobStatus.cancelled }) ≠ some { status := JobStatus.cancelled } := by
  decide

/-- C1 (amended): tenant cancellation is compare-and-swap guarded on
status PENDING and rejects otherwise leaving the record unchanged, and
the gateway's initial write stores PENDING; but the worker's status
update is an unconditional overwrite that installs the new status
whatever the current one, so transitions out of terminal states are
possible through it. -/
theorem claim1_theorem :
    (∀ (st : Option JobRec) (j : JobRec), st = some j →
       (j.status ≠ JobStatus.pending → applyJobOp JobOp.cancel st = st)
       ∧ (j.status = JobStatus.pending →
            applyJobOp JobOp.cancel st = some { j with status := JobStatus.cancelled }))
    ∧ (∀ (st : Option JobRec) (s : JobStatus) (e : Option String) (n : Nat),
         (applyJobOp (JobOp.workerUpdate s e n) st).map JobRec.status = some s)
    ∧ (∀ (a c : String) (n : Nat) (st : Option JobRec),
         (applyJobOp (JobOp.submitPut a c n) st).map JobRec.status = some JobStatus.pending)
    ∧ applyJobOp JobOp.cancel none = none := by
  refine ⟨?_, ?_, ?_, rfl⟩
  · rintro st j rfl
    constructor
    · intro hne
      simp [applyJobOp, JobAPI.cancel_job, hne]
    · intro hp
      simp [applyJobOp, JobAPI.cancel_job, hp, AuditService.log_action]
  · intro st s e n
    cases st <;> simp [applyJobOp, Worker.update_job_status]
  · intro a c n st
    simp [applyJobOp]

/-- C1 (witness): the amended theorem applied at concrete records, a
RUNNING one whose cancel is rejected unchanged and a PENDING one whose
cancel lands in CANCELLED. -/
theorem claim1_witness :
    applyJobOp JobOp.cancel (some { status := JobStatus.running })
        = some { status := JobStatus.running }
    ∧ applyJobOp JobOp.cancel (some { status := JobStatus.pending })
        = some { status := JobStatus.cancelled } := by
  have h1 := (claim1_theorem.1 (some { status := JobStatus.running })
      { status := JobStatus.running } rfl).1 (by decide)
  have h2 := (claim1_theorem.1 (some { status := JobStatus.pending })
      { status := JobStatus.pending } rfl).2 rfl
  exact ⟨h1, h2⟩

/-- C4: cancel_job succeeds and flips the status to CANCELLED exactly
when the stored status is PENDING; in every other case (RUNNING,
CANCELLED, any terminal state, or a missing record) it raises the
conditional-check failure before the audit call, leaving the whole
world unchanged, so the failure is surfaced and never silently
accepted. -/
theorem claim4_theorem (a : Bool) (t k : String) (w : World) :
    ((∃ j, w.job = some j ∧ j.status = JobStatus.pending) →
       (JobAPI.cancel_job a t k w).2 = Except.ok "cancelled"
       ∧ (JobAPI.cancel_job a t k w).1.job
           = w.job.map (fun j => { j with status := JobStatus.cancelled }))
    ∧ (¬ (∃ j, w.job = some j ∧ j.status = JobStatus.pending) →
       (JobAPI.cancel_job a t k w).2 = Except.error "ConditionalCheckFailedException"
       ∧ (JobAPI.cancel_job a t k w).1 = w) := by
  constructor
  · rintro ⟨j, hj, hp⟩
    cases a <;> simp [JobAPI.cancel_job, hj, hp, AuditService.log_action]
  · intro hn
    cases hw : w.job with
    | none => simp [JobAPI.cancel_job, hw]
    | some j =>
      have hp : ¬ j.status = JobStatus.pending := fun hp => hn ⟨j, hw, hp⟩
      simp [JobAPI.cancel_job, hw, hp]

/-- C4 (witness): cancelling a concrete PENDING job succeeds, and a
second cancel of the now-CANCELLED job fails with the conditional
check error. -/
theorem claim4_witness :
    (JobAPI.cancel_job true "t" "j" ⟨some { status := JobStatus.pending }, [], [], []⟩).2
        = Except.ok "cancelled"
    ∧ (JobAPI.cancel_job true "t" "j" ⟨some { status := JobStatus.cancelled }, [], [], []⟩).2
        = Except.error "ConditionalCheckFailedException" := by
  constructor
  · exact (claim4_theorem true "t" "j" _ |>.1 ⟨_, rfl, rfl⟩).1
  · refine (claim4_theorem true "t" "j" _ |>.2 ?_).1
    rintro ⟨j, hj, hp⟩
    simp at hj
    rw [← hj] at hp
    exact absurd hp (by decide)

/-- C9: the worker's status update always overwrites completed_at
(to the current time exactly when the new status is SUCCESS or FAILED,
to null otherwise, in particular for RUNNING), writes error_message
only when the supplied error string is non-empty (an empty one leaves
the pre-existing value), and touches no other field. -/
theorem claim9_theorem (w : World) (s : JobStatus) (e : Option String) (n : Nat) (j : JobRec)
    (h : w.job = some j) :
    (Worker.update_job_status w s e n).job =
      some { j with
             status := s
             completed_at := if s = JobStatus.success ∨ s = JobStatus.failed then some n else none
             error_message := if pyTruthy e then e else j.error_message } := by
  simp [Worker.update_job_status, h]

/-- C9 (witness): a FAILED update with an empty captured stderr stamps
completed_at, keeps the old error_message, and preserves every other
field. -/
theorem claim9_witness :
    (Worker.update_job_status
        ⟨some { agent := some "claude", command := some "c", created_at := some 0,
                status := JobStatus.running, error_message := some "old" }, [], [], []⟩
        JobStatus.failed (some "") 7).job =
      some { agent := some "claude", command := some "c", created_at := some 0,
             status := JobStatus.failed, completed_at := some 7,
             error_message := some "old" } := by
  have h := claim9_theorem
      ⟨some { agent := some "claude", command := some "c", created_at := some 0,
              status := JobStatus.running, error_message := some "old" }, [], [], []⟩
      JobStatus.failed (some "") 7
      { agent := some "claude", command := some "c", created_at := some 0,
        status := JobStatus.running, error_message := some "old" } rfl
  simpa using h

/-- C2: the claim as stated is false on the code. At the concrete input
of a job already CANCELLED, invoking the Executor on a redelivered
message is not a no-op: the unconditional RUNNING write goes through,
the command runs, the job ends SUCCESS and a START_JOB audit entry is
produced. -/
theorem claim2_counterexample :
    ((Worker.execute ⟨Except.ok (), RunOutcome.exited 0 "out" "", true, 1, 2⟩ "t" "j"
        ⟨some { status := JobStatus.cancelled }, [], [], []⟩).1.job.map JobRec.status
      = some JobStatus.success)
    ∧ (⟨"t", "START_JOB", "j"⟩ : AuditEntry) ∈
        (Worker.execute ⟨Except.ok (), RunOutcome.exited 0 "out" "", true, 1, 2⟩ "t" "j"
          ⟨some { status := JobStatus.cancelled }, [], [], []⟩).1.log
    ∧ JobStatus.isTerminal JobStatus.cancelled = true := by
  decide

/-- C2 (amended): the Executor's PENDING → RUNNING transition is NOT
conditional; whatever the stored status (PENDING, CANCELLED or any
terminal state), execute writes RUNNING, appends exactly one more
START_JOB audit entry, and drives the job to the terminal status
determined by the command outcome. A redelivered message therefore
re-executes the job rather than being a no-op. -/
theorem claim2_theorem (env : ExecEnv) (t jid : String) (w : World)
    (hm : env.mkdirs = Except.ok ()) (ha : env.auditOk = true) :
    (Worker.execute env t jid w).1.log.count ⟨t, "START_JOB", jid⟩
        = w.log.count ⟨t, "START_JOB", jid⟩ + 1
    ∧ (Worker.execute env t jid w).1.job.map JobRec.status =
        some (match env.run with
              | RunOutcome.exited c _ _ => if c = 0 then JobStatus.success else JobStatus.failed
              | RunOutcome.timeoutExpired => JobStatus.failed
              | RunOutcome.raised _ => JobStatus.failed) := by
  obtain ⟨mk, run, aud, n1, n2⟩ := env
  simp only at hm ha
  subst hm
  subst ha
  cases run with
  | exited c out err =>
    by_cases hc : c = 0 <;>
      simp [Worker.execute, Worker.update_job_status, AuditService.log_action, hc,
        List.count_append, List.count_cons, AuditEntry.mk.injEq]
  | timeoutExpired =>
    simp [Worker.execute, Worker.update_job_status, AuditService.log_action,
      List.count_append, List.count_cons, AuditEntry.mk.injEq]
  | raised msg =>
    simp [Worker.execute, Worker.update_job_status, AuditService.log_action,
      List.count_append, List.count_cons, AuditEntry.mk.injEq]

/-- C2 (witness): the amended theorem applied to a CANCELLED job and a
failing command; a duplicate START_JOB entry appears. -/
theorem claim2_witness :
    (Worker.execute ⟨Except.ok (), RunOutcome.exited 1 "" "boom", true, 1, 2⟩ "t" "j"
        ⟨some { status := JobStatus.cancelled }, [], [], []⟩).1.log.count ⟨"t", "START_JOB", "j"⟩
      = 1 := by
  have h := claim2_theorem ⟨Except.ok (), RunOutcome.exited 1 "" "boom", true, 1, 2⟩ "t" "j"
      ⟨some { status := JobStatus.cancelled }, [], [], []⟩ rfl rfl
  simpa using h.1

/-- C5: the claim as stated is false on the code. At a concrete input
where os.makedirs fails (it runs before the try block), the exception
propagates out of execute, the job is left in RUNNING with no FAILED
write, and no JOB_ERROR audit entry is produced. -/
theorem claim5_counterexample :
    ((Worker.execute ⟨Except.error "PermissionError", RunOutcome.exited 0 "" "", true, 1, 2⟩
        "t" "j" ⟨some { status := JobStatus.pending }, [], [], []⟩).2
      = Except.error "PermissionError")
    ∧ ((Worker.execute ⟨Except.error "PermissionError", RunOutcome.exited 0 "" "", true, 1, 2⟩
        "t" "j" ⟨some { status := JobStatus.pending }, [], [], []⟩).1.job.map JobRec.status
      = some JobStatus.running)
    ∧ (⟨"t", "JOB_ERROR", "j"⟩ : AuditEntry) ∉
        (Worker.execute ⟨Except.error "PermissionError", RunOutcome.exited 0 "" "", true, 1, 2⟩
          "t" "j" ⟨some { status := JobStatus.pending }, [], [], []⟩).1.log := by
  refine ⟨rfl, by decide, by decide⟩

/-- C5 (amended): once the workspace directory is created, every
execution outcome resolves the job to a terminal status with a stamped
completion time: exit 0 gives SUCCESS; non-zero exit gives FAILED with
the captured stderr recorded when non-empty and a JOB_FAILED entry;
timeout gives FAILED with the fixed "Timeout expired" error and a
JOB_TIMEOUT entry; any other in-try exception gives FAILED with the
exception text and a JOB_ERROR entry. A workspace-creation failure,
however, escapes execute and leaves the job in RUNNING with only the
START_JOB entry written. -/
theorem claim5_theorem (env : ExecEnv) (t jid : String) (w : World) :
    (∀ m, env.mkdirs = Except.error m →
       (Worker.execute env t jid w).2 = Except.error m
       ∧ (Worker.execute env t jid w).1.job.map JobRec.status = some JobStatus.running
       ∧ (env.auditOk = true →
            (Worker.execute env t jid w).1.log = w.log ++ [⟨t, "START_JOB", jid⟩]))
    ∧ (env.mkdirs = Except.ok () →
       (Worker.execute env t jid w).2 = Except.ok ()
       ∧ (Worker.execute env t jid w).1.job.map JobRec.status =
           some (match env.run with
                 | RunOutcome.exited c _ _ => if c = 0 then JobStatus.success else JobStatus.failed
                 | RunOutcome.timeoutExpired => JobStatus.failed
                 | RunOutcome.raised _ => JobStatus.failed)
       ∧ (Worker.execute env t jid w).1.job.map JobRec.completed_at = some (some env.nowTerminal)
       ∧ (∀ c out err, env.run = RunOutcome.exited c out err → ¬ c = 0 → ¬ err = "" →
            (Worker.execute env t jid w).1.job.map JobRec.error_message = some (some err)
            ∧ (env.auditOk = true →
                 (⟨t, "JOB_FAILED", jid⟩ : AuditEntry) ∈ (Worker.execute env t jid w).1.log))
       ∧ (env.run = RunOutcome.timeoutExpired →
            (Worker.execute env t jid w).1.job.map JobRec.error_message
                = some (some "Timeout expired")
            ∧ (env.auditOk = true →
                 (⟨t, "JOB_TIMEOUT", jid⟩ : AuditEntry) ∈ (Worker.execute env t jid w).1.log))
       ∧ (∀ msg, env.run = RunOutcome.raised msg → ¬ msg = "" →
            (Worker.execute env t jid w).1.job.map JobRec.error_message = some (some msg)
            ∧ (env.auditOk = true →
                 (⟨t, "JOB_ERROR", jid⟩ : AuditEntry) ∈ (Worker.execute env t jid w).1.log))) := by
  obtain ⟨mk, run, aud, n1, n2⟩ := env
  obtain ⟨job, queue, log, events⟩ := w
  constructor
  · rintro m rfl
    cases aud <;> cases job <;>
      simp [Worker.execute, Worker.update_job_status, AuditService.log_action]
  · rintro rfl
    refine ⟨?_, ?_, ?_, ?_, ?_, ?_⟩
    · cases run with
      | exited c out err =>
        by_cases hc : c = 0 <;> cases aud <;> cases job <;>
          simp [Worker.execute, Worker.update_job_status, AuditService.log_action, hc]
      | timeoutExpired =>
        cases aud <;> cases job <;>
          simp [Worker.execute, Worker.update_job_status, AuditService.log_action]
      | raised msg =>
        cases aud <;> cases job <;>
          simp [Worker.execute, Worker.update_job_status, AuditService.log_action]
    · cases run with
      | exited c out err =>
        by_cases hc : c = 0 <;> cases aud <;> cases job <;>
          simp [Worker.execute, Worker.update_job_status, AuditService.log_action, hc]
      | timeoutExpired =>
        cases aud <;> cases job <;>
          simp [Worker.execute, Worker.update_job_status, AuditService.log_action]
      | raised msg =>
        cases aud <;> cases job <;>
          simp [Worker.execute, Worker.update_job_status, AuditService.log_action]
    · cases run with
      | exited c out err =>
        by_cases hc : c = 0 <;> cases aud <;> cases job <;>
          simp [Worker.execute, Worker.update_job_status, AuditService.log_action, hc]
      | timeoutExpired =>
        cases aud <;> cases job <;>
          simp [Worker.execute, Worker.update_job_status, AuditService.log_action]
      | raised msg =>
        cases aud <;> cases job <;>
          simp [Worker.execute, Worker.update_job_status, AuditService.log_action]
    · rintro c out err rfl hc herr
      constructor
      · cases aud <;> cases job <;>
          simp [Worker.execute, Worker.update_job_status, AuditService.log_action, hc,
            pyTruthy, herr]
      · rintro rfl
        cases job <;>
          simp [Worker.execute, Worker.update_job_status, AuditService.log_action, hc]
    · rintro rfl
      constructor
      · cases aud <;> cases job <;>
          simp [Worker.execute, Worker.update_job_status, AuditService.log_action, pyTruthy]
      · rintro rfl
        cases job <;>
          simp [Worker.execute, Worker.update_job_status, AuditService.log_action]
    · rintro msg rfl hmsg
      constructor
      · cases aud <;> cases job <;>
          simp [Worker.execute, Worker.update_job_status, AuditService.log_action,
            pyTruthy, hmsg]
      · rintro rfl
        cases job <;>
          simp [Worker.execute, Worker.update_job_status, AuditService.log_action]

/-- C5 (witness): the amended theorem applied to a concrete timed-out
run: the job records the fixed "Timeout expired" diagnostic and a
JOB_TIMEOUT entry is logged. -/
theorem claim5_witness :
    ((Worker.execute ⟨Except.ok (), RunOutcome.timeoutExpired, true, 1, 2⟩ "t" "j"
        ⟨some { status := JobStatus.running }, [], [], []⟩).1.job.map JobRec.error_message
      = some (some "Timeout expired"))
    ∧ (⟨"t", "JOB_TIMEOUT", "j"⟩ : AuditEntry) ∈
        (Worker.execute ⟨Except.ok (), RunOutcome.timeoutExpired, true, 1, 2⟩ "t" "j"
          ⟨some { status := JobStatus.running }, [], [], []⟩).1.log := by
  have h := (claim5_theorem ⟨Except.ok (), RunOutcome.timeoutExpired, true, 1, 2⟩ "t" "j"
      ⟨some { status := JobStatus.running }, [], [], []⟩).2 rfl
  have ht := h.2.2.2.2.1 rfl
  exact ⟨ht.1, ht.2 rfl⟩



/-- C6: the claim as stated is false on the code. Cancelling a concrete
PENDING job writes the terminal status CANCELLED without setting any
completion timestamp (the conditional update sets only the status
attribute). -/
theorem claim6_counterexample :
    ((JobAPI.cancel_job true "t" "j"
        ⟨some { agent := some "claude", command := some "echo hi", created_at := some 0,
                status := JobStatus.pending }, [], [], []⟩).1.job.map JobRec.status
      = some JobStatus.cancelled)
    ∧ ((JobAPI.cancel_job true "t" "j"
        ⟨some { agent := some "claude", command := some "echo hi", created_at := some 0,
                status := JobStatus.pending }, [], [], []⟩).1.job.map JobRec.completed_at
      = some none)
    ∧ JobStatus.isTerminal JobStatus.cancelled = true := by
  decide

/-- C6 (amended): the worker's status update is one single write (one
jobWrite event) carrying status, completion time and optional error
together, stamping the completion time exactly when the new status is
SUCCESS or FAILED; over every sequence of status-mutating operations a
PENDING or RUNNING record never carries a completion time and a
SUCCESS or FAILED record always does; but the cancellation write sets
only the status, so a CANCELLED record keeps its previous (null)
completion timestamp. -/
theorem claim6_theorem :
    (∀ (w : World) (s : JobStatus) (e : Option String) (n : Nat),
       ∃ r : JobRec,
         (Worker.update_job_status w s e n).events = w.events ++ [Event.jobWrite r]
         ∧ (Worker.update_job_status w s e n).job = some r
         ∧ r.status = s
         ∧ r.completed_at
             = (if s = JobStatus.success ∨ s = JobStatus.failed then some n else none))
    ∧ (∀ (op : JobOp) (st : Option JobRec),
         statusCompletionOk st → statusCompletionOk (applyJobOp op st))
    ∧ (∀ (ops : List JobOp) (st : Option JobRec),
         statusCompletionOk st → statusCompletionOk (runJobOps ops st))
    ∧ (∀ (w : World) (j : JobRec) (a : Bool) (t k : String),
         w.job = some j → j.status = JobStatus.pending →
           (JobAPI.cancel_job a t k w).1.job = some { j with status := JobStatus.cancelled }) := by
  have hpres : ∀ (op : JobOp) (st : Option JobRec),
      statusCompletionOk st → statusCompletionOk (applyJobOp op st) := by
    intro op st h
    cases op with
    | submitPut a c n =>
      intro j hj
      simp [applyJobOp, JobAPI.submit_job] at hj
      subst hj
      constructor
      · intro _; rfl
      · rintro (hs | hs) <;> simp at hs
    | cancel =>
      cases st with
      | none =>
        intro j hj
        simp [applyJobOp, JobAPI.cancel_job] at hj
      | some j0 =>
        by_cases hp : j0.status = JobStatus.pending
        · intro j hj
          simp [applyJobOp, JobAPI.cancel_job, hp, AuditService.log_action] at hj
          subst hj
          constructor
          · rintro (hs | hs) <;> simp at hs
          · rintro (hs | hs) <;> simp at hs
        · intro j hj
          simp [applyJobOp, JobAPI.cancel_job, hp] at hj
          subst hj
          exact h j0 rfl
    | workerUpdate s e n =>
      cases st with
      | none =>
        intro j hj
        simp [applyJobOp, Worker.update_job_status] at hj
        subst hj
        constructor
        · rintro (hs | hs) <;> simp only at hs <;> subst hs <;> simp
        · rintro (hs | hs) <;> simp only at hs <;> subst hs <;> simp
      | some j0 =>
        intro j hj
        simp [applyJobOp, Worker.update_job_status] at hj
        subst hj
        constructor
        · rintro (hs | hs) <;> simp only at hs <;> subst hs <;> simp
        · rintro (hs | hs) <;> simp only at hs <;> subst hs <;> simp
  refine ⟨?_, hpres, ?_, ?_⟩
  · intro w s e n
    obtain ⟨job, queue, log, events⟩ := w
    cases job with
    | none =>
      refine ⟨{ status := s
                completed_at :=
                  (if s = JobStatus.success ∨ s = JobStatus.failed then some n else none)
                error_message := (if pyTruthy e then e else none) }, ?_, ?_, rfl, rfl⟩ <;>
        simp [Worker.update_job_status]
    | some j =>
      refine ⟨{ j with
                status := s
                completed_at :=
                  (if s = JobStatus.success ∨ s = JobStatus.failed then some n else none)
                error_message := (if pyTruthy e then e else j.error_message) },
              ?_, ?_, rfl, rfl⟩ <;>
        simp [Worker.update_job_status]
  · intro ops
    induction ops with
    | nil => intro st h; exact h
    | cons op rest ih =>
      intro st h
      exact ih (applyJobOp op st) (hpres op st h)
  · intro w j a t k hj hp
    cases a <;> simp [JobAPI.cancel_job, hj, hp, AuditService.log_action]

/-- C6 (witness): the amended invariant holds after a concrete
submit-cancel-run sequence, and a concrete cancel leaves completed_at
null. -/
theorem claim6_witness :
    statusCompletionOk (runJobOps
        [JobOp.submitPut "claude" "echo hi" 0, JobOp.cancel,
         JobOp.workerUpdate JobStatus.running none 1] none)
    ∧ (JobAPI.cancel_job true "t" "j"
        ⟨some { status := JobStatus.pending, completed_at := none }, [], [], []⟩).1.job
      = some { status := JobStatus.cancelled, completed_at := none } := by
  constructor
  · exact claim6_theorem.2.2.1 _ none (by intro j hj; cases hj)
  · exact claim6_theorem.2.2.2 _ { status := JobStatus.pending } true "t" "j" rfl rfl

/-- C7: in submit_job the new job record is written to the store in
PENDING strictly before any dispatch-queue publish (any publish event
of the call is preceded in the trace by the PENDING jobWrite); and
when the store write succeeds but the publish fails, the call raises
the publish error to the caller while the job stays stored as PENDING,
with no queue message, no cleanup and no re-publish. -/
theorem claim7_theorem (env : SubmitEnv) (t jid ag cmd : String) (w : World) :
    ((∃ m, Event.publish m ∈
        ((JobAPI.submit_job env t jid ag cmd w).1.events.drop w.events.length)) →
       ∃ item rest, (JobAPI.submit_job env t jid ag cmd w).1.events
           = w.events ++ Event.jobWrite item :: rest
         ∧ item.status = JobStatus.pending
         ∧ Event.publish ⟨t, jid, item, env.priority⟩ ∈ rest)
    ∧ (agentRecognized ag = true → ¬ cmd = "" → env.putOk = true → env.queueConfigured = true →
       env.publishOk = false →
         (JobAPI.submit_job env t jid ag cmd w).2 = Except.error "send_message failed"
         ∧ (∃ item, (JobAPI.submit_job env t jid ag cmd w).1.job = some item
             ∧ item.status = JobStatus.pending
             ∧ (JobAPI.submit_job env t jid ag cmd w).1.events
                 = w.events ++ [Event.jobWrite item])
         ∧ (JobAPI.submit_job env t jid ag cmd w).1.queue = w.queue) := by
  obtain ⟨qc, putOk, pubOk, aud, now, prio⟩ := env
  constructor
  · rintro ⟨m, hm⟩
    by_cases hag : agentRecognized ag = true
    rotate_left
    · simp only [Bool.not_eq_true] at hag
      simp [JobAPI.submit_job, hag, List.drop_length] at hm
    by_cases hcmd : cmd = ""
    · simp [JobAPI.submit_job, hag, hcmd, List.drop_length] at hm
    cases putOk with
    | false => simp [JobAPI.submit_job, hag, hcmd, List.drop_length] at hm
    | true =>
      cases qc with
      | false =>
        cases aud <;>
          simp [JobAPI.submit_job, hag, hcmd, AuditService.log_action, List.drop_left] at hm
      | true =>
        cases pubOk with
        | false =>
          simp [JobAPI.submit_job, hag, hcmd, List.drop_left] at hm
        | true =>
          cases aud with
          | false =>
            refine ⟨⟨some ag, some cmd, some now, none, JobStatus.pending, none, none⟩,
                    [Event.publish ⟨t, jid,
                       ⟨some ag, some cmd, some now, none, JobStatus.pending, none, none⟩, prio⟩],
                    ?_, rfl, ?_⟩
            · simp [JobAPI.submit_job, hag, hcmd, AuditService.log_action]
            · simp
          | true =>
            refine ⟨⟨some ag, some cmd, some now, none, JobStatus.pending, none, none⟩,
                    [Event.publish ⟨t, jid,
                       ⟨some ag, some cmd, some now, none, JobStatus.pending, none, none⟩, prio⟩,
                     Event.auditPut ⟨t, "SUBMIT_JOB", jid⟩],
                    ?_, rfl, ?_⟩
            · simp [JobAPI.submit_job, hag, hcmd, AuditService.log_action]
            · simp
  · intro hag hcmd hput hqc hpub
    simp only at hput hqc hpub
    subst hput; subst hqc; subst hpub
    refine ⟨?_, ⟨⟨some ag, some cmd, some now, none, JobStatus.pending, none, none⟩, ?_, rfl, ?_⟩, ?_⟩ <;>
      simp [JobAPI.submit_job, hag, hcmd]

/-- C7 (witness): a concrete submission whose publish fails leaves the
job stored PENDING, an empty queue, and an error for the caller. -/
theorem claim7_witness :
    ((JobAPI.submit_job ⟨true, true, false, true, 3, "normal"⟩ "t1" "j1" "claude" "echo hi"
        ⟨none, [], [], []⟩).2 = Except.error "send_message failed")
    ∧ ((JobAPI.submit_job ⟨true, true, false, true, 3, "normal"⟩ "t1" "j1" "claude" "echo hi"
        ⟨none, [], [], []⟩).1.job.map JobRec.status = some JobStatus.pending)
    ∧ ((JobAPI.submit_job ⟨true, true, false, true, 3, "normal"⟩ "t1" "j1" "claude" "echo hi"
        ⟨none, [], [], []⟩).1.queue = []) := by
  have h := (claim7_theorem ⟨true, true, false, true, 3, "normal"⟩ "t1" "j1" "claude" "echo hi"
      ⟨none, [], [], []⟩).2 (by decide) (by decide) rfl rfl rfl
  obtain ⟨h1, ⟨item, hitem, hstat, _⟩, hqueue⟩ := h
  exact ⟨h1, by rw [hitem]; simp [hstat], hqueue⟩



/-- C8: an audit-store failure never propagates: log_action always
returns normally touching only the audit log, and the primary outcome
(job record, queue, key store, returned value) of submit_job,
cancel_job, the worker's execute, generate_key and revoke_key is
identical whether the audit write succeeds or fails. -/
theorem claim8_theorem (a b : Bool) :
    (∀ (w : World) (e : AuditEntry),
       (AuditService.log_action a w e).job = w.job
       ∧ (AuditService.log_action a w e).queue = w.queue)
    ∧ (∀ (env : SubmitEnv) (t jid ag cmd : String) (w : World),
       (JobAPI.submit_job { env with auditOk := a } t jid ag cmd w).1.job
           = (JobAPI.submit_job { env with auditOk := b } t jid ag cmd w).1.job
       ∧ (JobAPI.submit_job { env with auditOk := a } t jid ag cmd w).1.queue
           = (JobAPI.submit_job { env with auditOk := b } t jid ag cmd w).1.queue
       ∧ (JobAPI.submit_job { env with auditOk := a } t jid ag cmd w).2
           = (JobAPI.submit_job { env with auditOk := b } t jid ag cmd w).2)
    ∧ (∀ (t jid : String) (w : World),
       (JobAPI.cancel_job a t jid w).1.job = (JobAPI.cancel_job b t jid w).1.job
       ∧ (JobAPI.cancel_job a t jid w).1.queue = (JobAPI.cancel_job b t jid w).1.queue
       ∧ (JobAPI.cancel_job a t jid w).2 = (JobAPI.cancel_job b t jid w).2)
    ∧ (∀ (env : ExecEnv) (t jid : String) (w : World),
       (Worker.execute { env with auditOk := a } t jid w).1.job
           = (Worker.execute { env with auditOk := b } t jid w).1.job
       ∧ (Worker.execute { env with auditOk := a } t jid w).2
           = (Worker.execute { env with auditOk := b } t jid w).2)
    ∧ (∀ (f : String → String) (t n rk kid : String) (now : Nat) (kw : KeyWorld),
       (APIKeyAPI.generate_key a f t n rk kid now kw).1.keys
           = (APIKeyAPI.generate_key b f t n rk kid now kw).1.keys
       ∧ (APIKeyAPI.generate_key a f t n rk kid now kw).2
           = (APIKeyAPI.generate_key b f t n rk kid now kw).2)
    ∧ (∀ (t kid : String) (kw : KeyWorld),
       (APIKeyAPI.revoke_key a t kid kw).1.keys = (APIKeyAPI.revoke_key b t kid kw).1.keys
       ∧ (APIKeyAPI.revoke_key a t kid kw).2 = (APIKeyAPI.revoke_key b t kid kw).2) := by
  refine ⟨?_, ?_, ?_, ?_, ?_, ?_⟩
  · intro w e
    exact ⟨logAction_job a w e, logAction_queue a w e⟩
  · intro env t jid ag cmd w
    obtain ⟨qc, putO, pubO, aud0, now, prio⟩ := env
    refine ⟨?_, ?_, ?_⟩ <;>
      · simp only [JobAPI.submit_job]
        split_ifs <;> cases a <;> cases b <;> simp [AuditService.log_action]
  · intro t jid w
    cases hw : w.job with
    | none => simp [JobAPI.cancel_job, hw]
    | some j =>
      by_cases hp : j.status = JobStatus.pending <;>
        cases a <;> cases b <;> simp [JobAPI.cancel_job, hw, hp, AuditService.log_action]
  · intro env t jid w
    obtain ⟨mk, run, aud0, n1, n2⟩ := env
    cases mk with
    | error m =>
      cases a <;> cases b <;>
        simp [Worker.execute, Worker.update_job_status, AuditService.log_action]
    | ok u =>
      cases u
      cases run with
      | exited c out err =>
        by_cases hc : c = 0 <;> cases a <;> cases b <;>
          simp [Worker.execute, Worker.update_job_status, AuditService.log_action, hc]
      | timeoutExpired =>
        cases a <;> cases b <;>
          simp [Worker.execute, Worker.update_job_status, AuditService.log_action]
      | raised msg =>
        cases a <;> cases b <;>
          simp [Worker.execute, Worker.update_job_status, AuditService.log_action]
  · intro f t n rk kid now kw
    cases a <;> cases b <;> simp [APIKeyAPI.generate_key, KeyWorld.log_action]
  · intro t kid kw
    cases a <;> cases b <;> simp [APIKeyAPI.revoke_key, KeyWorld.log_action]



/-- C3: the claim as stated is false on the code. validate_key never
consults the owning tenant's lifecycle status: at a concrete world
where the key record is valid and non-revoked but its tenant is
suspended (not active), validate_key still returns the Allow context. -/
theorem claim3_counterexample :
    Authorizer.validate_key
        ⟨fun h => if h = "H1"
                  then Except.ok [{ tenant_id := some "ten_s", revoked := some false }]
                  else Except.ok [],
         fun t => if t = "ten_s" then some "suspended" else none⟩
        (fun _ => "H1") "op_live_abc"
      = some ⟨"ten_s", ["job:run"], "default"⟩
    ∧ (AuthWorld.tenantStatus
        ⟨fun h => if h = "H1"
                  then Except.ok [{ tenant_id := some "ten_s", revoked := some false }]
                  else Except.ok [],
         fun t => if t = "ten_s" then some "suspended" else none⟩ "ten_s")
      = some "suspended" := by
  exact ⟨by decide, by decide⟩

/-- C3 (amended): validate_key returns the tenant context exactly when
the credential has a recognized live/test prefix, the digest lookup
succeeds and its first item exists, is not revoked and carries a
tenant id (taken as the returned identity); a malformed prefix is
denied for every storage world (no lookup can influence it), and any
storage error during lookup denies — fail closed. The owning tenant's
lifecycle status is never checked. -/
theorem claim3_theorem (aw : AuthWorld) (f : String → String) (k : String) :
    (∀ ctx : TenantCtx,
       Authorizer.validate_key aw f k = some ctx ↔
         ((pyStartswith k "op_live_" || pyStartswith k "op_test_") = true
          ∧ ∃ items kd, aw.lookup (f k) = Except.ok items
              ∧ items.head? = some kd
              ∧ kd.revoked.getD false = false
              ∧ kd.tenant_id = some ctx.tenant_id
              ∧ ctx.scopes = kd.scopes.getD ["job:run"]
              ∧ ctx.key_name = kd.name.getD "default"))
    ∧ ((pyStartswith k "op_live_" || pyStartswith k "op_test_") = false →
        Authorizer.validate_key aw f k = none)
    ∧ (∀ e, aw.lookup (f k) = Except.error e → Authorizer.validate_key aw f k = none) := by
  refine ⟨?_, ?_, ?_⟩
  · intro ctx
    constructor
    · intro h
      by_cases hpre : (pyStartswith k "op_live_" || pyStartswith k "op_test_") = true
      rotate_left
      · simp only [Bool.not_eq_true] at hpre
        simp [Authorizer.validate_key, hpre] at h
      refine ⟨hpre, ?_⟩
      simp only [Authorizer.validate_key, hpre, not_true_eq_false, if_false] at h
      cases hl : aw.lookup (f k) with
      | error e => simp only [hl] at h; exact Option.noConfusion h
      | ok items =>
        simp only [hl] at h
        cases hh : items.head? with
        | none => simp only [hh] at h; exact Option.noConfusion h
        | some kd =>
          simp only [hh] at h
          by_cases hrev : kd.revoked.getD false = true
          · simp [hrev] at h
          · simp only [Bool.not_eq_true] at hrev
            simp only [hrev, Bool.false_eq_true, if_false] at h
            cases htid : kd.tenant_id with
            | none => simp only [htid] at h; exact Option.noConfusion h
            | some tid =>
              simp only [htid, Option.some.injEq] at h
              refine ⟨items, kd, rfl, hh, hrev, ?_, ?_, ?_⟩
              · rw [htid, ← h]
              · rw [← h]
              · rw [← h]
    · rintro ⟨hpre, items, kd, hl, hh, hrev, htid, hsc, hname⟩
      simp only [Authorizer.validate_key, hpre, not_true_eq_false, if_false]
      simp only [hl, hh, hrev, Bool.false_eq_true, if_false, htid]
      rw [← hsc, ← hname]
  · intro h
    simp [Authorizer.validate_key, h]
  · intro e he
    by_cases hpre : (pyStartswith k "op_live_" || pyStartswith k "op_test_") = true
    · simp [Authorizer.validate_key, hpre, he]
    · simp only [Bool.not_eq_true] at hpre
      simp [Authorizer.validate_key, hpre]

/-- C3 (witness): the amended theorem applied to a malformed credential
and to a well-formed one whose lookup errors; both are denied. -/
theorem claim3_witness :
    Authorizer.validate_key ⟨fun _ => Except.error "down", fun _ => none⟩ (fun s => s) "zzz"
        = none
    ∧ Authorizer.validate_key ⟨fun _ => Except.error "down", fun _ => none⟩ (fun s => s)
        "op_live_x" = none := by
  refine ⟨(claim3_theorem _ _ _).2.1 (by decide), (claim3_theorem _ _ _).2.2 "down" rfl⟩



/-- C10: when the authorization token does not parse as exactly two
whitespace-separated parts with first part lowercasing to "bearer",
the handler validates the entire raw token as the API key, so a bare
whitespace-free credential is authorized exactly as when presented
with the "Bearer " marker. -/
theorem claim10_theorem (aw : AuthWorld) (f : String → String) (t : String) :
    (¬ ((pySplit t).length = 2 ∧ pyLower ((pySplit t).headD "") = "bearer") →
       extractApiKey t = t
       ∧ (¬ t = "" →
            authorizerHandler aw f (some t)
              = match Authorizer.validate_key aw f t with
                | some ctx => Except.ok ⟨ctx.tenant_id, "Allow", some ctx⟩
                | none => Except.ok ⟨"anonymous", "Deny", none⟩))
    ∧ (∀ k, ¬ k = "" → (∀ c ∈ k.data, c.isWhitespace = false) →
         authorizerHandler aw f (some ("Bearer " ++ k)) = authorizerHandler aw f (some k)) := by
  constructor
  · intro hno
    rw [not_and_or] at hno
    have hext : extractApiKey t = t := by
      rw [extractApiKey]
      exact if_pos hno
    refine ⟨hext, ?_⟩
    intro ht
    simp only [authorizerHandler, ht, if_false, hext]
  · intro k hk hks
    have hb : pySplit ("Bearer " ++ k) = ["Bearer", k] := pySplit_bearer k hk hks
    have hbk : pySplit k = [k] := pySplit_noWs k hk hks
    have hlb : pyLower "Bearer" = "bearer" := by decide
    have hne : ¬ ("Bearer " ++ k) = "" := by
      intro h0
      have h1 := congrArg String.data h0
      rw [data_append] at h1
      simp at h1
    have hx1 : extractApiKey ("Bearer " ++ k) = k := by
      simp [extractApiKey, hb, hlb]
    have hx2 : extractApiKey k = k := by
      simp [extractApiKey, hbk]
    simp only [authorizerHandler, hne, hk, if_false, hx1, hx2]

/-- C10 (witness): a concrete bare credential yields the same handler
answer as the same credential behind "Bearer ". -/
theorem claim10_witness :
    authorizerHandler ⟨fun _ => Except.ok [], fun _ => none⟩ (fun s => s)
        (some ("Bearer " ++ "op_live_x"))
      = authorizerHandler ⟨fun _ => Except.ok [], fun _ => none⟩ (fun s => s)
        (some "op_live_x") := by
  exact (claim10_theorem ⟨fun _ => Except.ok [], fun _ => none⟩ (fun s => s) "x").2
    "op_live_x" (by decide) (by decide)


end Outpost
